import Mathlib

/-!
Verification of `geo_legacy_strip.py` against its specification.

The program strips unneeded layers from legacy netCDF files and reduces
the stored precision of the remaining layers.  This file gives a shallow
embedding of the script: the filename grammar (the regular expression
`legacy_regex_str` together with the backtracking prefix-match semantics
of Python's `re.match`), the static schema and precision tables, the
per-file transcoding pipeline `strip_geo_legacy_file`, and the batch
driver `main`.  The netCDF container is modelled abstractly: a source
file is a list of dimensions, global attributes and variables; writing
produces an output container value, and publishing is modelled as the
list of (path, container) pairs the run would copy into place.
-/

namespace GeoLegacyStrip

/-! ### Filename grammar

The script matches the bare filename against

  `ACSPO_([\w\.]+)_(\w+)_(\w+)_(\d{4})-(\d{2})-(\d{2})_(\d{2})(\d{2})-(\d{2})(\d{2})_(\d{8}).(\d{6}).nc`

using `re.match`, i.e. the pattern is anchored at the start of the string
only; trailing characters after a successful match are ignored.  The two
unescaped dots in the pattern match any single character.  We embed the
match as a deterministic parser that reproduces the leftmost-greedy
backtracking order of Python's engine for this pattern: each `+` group
tries the longest candidate first, and the first full parse in that
priority order wins.  `\w` is modelled as ASCII alphanumeric or
underscore (the filenames in scope are ASCII).
-/

/-- The 12 capture groups of `legacy_regex`, in order.  Group 8 (`sm`) is
the minute of the start time, group 10 (`em`) the minute of the end time. -/
structure Tokens where
  g1 : List Char
  g2 : List Char
  g3 : List Char
  year : List Char
  month : List Char
  day : List Char
  sh : List Char
  sm : List Char
  eh : List Char
  em : List Char
  gid : List Char
  subsec : List Char
deriving DecidableEq, Repr

/-- Character class `\w` of the pattern (ASCII reading). -/
def isWordCh (c : Char) : Bool := c.isAlphanum || c = '_'

/-- Character class `[\w\.]` of the pattern. -/
def isWordDotCh (c : Char) : Bool := isWordCh c || c = '.'

/-- Length of the longest prefix whose characters all satisfy `p`. -/
def maxRun (p : Char → Bool) : List Char → Nat
  | [] => 0
  | c :: cs => if p c then maxRun p cs + 1 else 0

/-- First defined value of `f` along the list, in list order. -/
def firstSome (f : Nat → Option α) : List Nat → Option α
  | [] => none
  | n :: ns =>
    match f n with
    | some x => some x
    | none => firstSome f ns

/-- The candidate lengths `[m, m-1, ..., 1]` a greedy `+` group tries. -/
def descLens (m : Nat) : List Nat := (List.range m).reverse.map (· + 1)

/-- Take exactly `n` leading digits. -/
def takeDigits (n : Nat) (l : List Char) : Option (List Char × List Char) :=
  let t := l.take n
  if t.length = n ∧ t.all Char.isDigit then some (t, l.drop n) else none

/-- Consume one expected literal character. -/
def expectCh (c : Char) : List Char → Option (List Char)
  | [] => none
  | x :: xs => if x = c then some xs else none

/-- Consume one arbitrary character (the unescaped `.` of the pattern). -/
def anyCh : List Char → Option (List Char)
  | [] => none
  | _ :: xs => some xs

/-- Consume an expected literal string. -/
def expectLit : List Char → List Char → Option (List Char)
  | [], l => some l
  | _ :: _, [] => none
  | p :: ps, c :: cs => if c = p then expectLit ps cs else none

/-- Parse `(\d{4})-(\d{2})-(\d{2})_`, the date fields. -/
def parseDate (l : List Char) : Option ((List Char × List Char × List Char) × List Char) := do
  let (year, l) ← takeDigits 4 l
  let l ← expectCh '-' l
  let (month, l) ← takeDigits 2 l
  let l ← expectCh '-' l
  let (day, l) ← takeDigits 2 l
  let l ← expectCh '_' l
  pure ((year, month, day), l)

/-- Parse `(\d{2})(\d{2})-(\d{2})(\d{2})_`, the start/end time fields. -/
def parseTimes (l : List Char) :
    Option ((List Char × List Char × List Char × List Char) × List Char) := do
  let (sh, l) ← takeDigits 2 l
  let (sm, l) ← takeDigits 2 l
  let l ← expectCh '-' l
  let (eh, l) ← takeDigits 2 l
  let (em, l) ← takeDigits 2 l
  let l ← expectCh '_' l
  pure ((sh, sm, eh, em), l)

/-- Parse `(\d{8}).(\d{6}).nc`; the two dots accept any character. -/
def parseId (l : List Char) : Option (List Char × List Char) := do
  let (gid, l) ← takeDigits 8 l
  let l ← anyCh l
  let (subsec, l) ← takeDigits 6 l
  let l ← anyCh l
  let l ← expectCh 'n' l
  let _ ← expectCh 'c' l
  pure (gid, subsec)

/-- Parse the fixed-layout part of the pattern that follows the third
free-form group and its `_` separator.  Any suffix left over after the
final `nc` is ignored, exactly as `re.match` ignores it. -/
def parseFixed (g1 g2 g3 : List Char) (l : List Char) : Option Tokens := do
  let ((year, month, day), l) ← parseDate l
  let ((sh, sm, eh, em), l) ← parseTimes l
  let (gid, subsec) ← parseId l
  pure ⟨g1, g2, g3, year, month, day, sh, sm, eh, em, gid, subsec⟩

/-- Try every length of the third `(\w+)` group, longest first. -/
def tryG3 (g1 g2 : List Char) (l : List Char) : Option Tokens :=
  firstSome
    (fun n =>
      match expectCh '_' (l.drop n) with
      | none => none
      | some r => parseFixed g1 g2 (l.take n) r)
    (descLens (maxRun isWordCh l))

/-- Try every length of the second `(\w+)` group, longest first. -/
def tryG2 (g1 : List Char) (l : List Char) : Option Tokens :=
  firstSome
    (fun n =>
      match expectCh '_' (l.drop n) with
      | none => none
      | some r => tryG3 g1 (l.take n) r)
    (descLens (maxRun isWordCh l))

/-- Try every length of the `([\w\.]+)` group, longest first. -/
def tryG1 (l : List Char) : Option Tokens :=
  firstSome
    (fun n =>
      match expectCh '_' (l.drop n) with
      | none => none
      | some r => tryG2 (l.take n) r)
    (descLens (maxRun isWordDotCh l))

/-- `legacy_regex.match(name)`: anchored at the start of the string, free
to stop before its end. -/
def legacyMatch (s : String) : Option Tokens :=
  match expectLit "ACSPO_".toList s.toList with
  | none => none
  | some r => tryG1 r

/-- Numeric value of a digit string, as Python's `int` reads it. -/
def digitsVal (l : List Char) : Nat :=
  l.foldl (fun a c => 10 * a + (c.toNat - 48)) 0

/-- `is_hourly = int(match[8]) == 0`: the script derives the cadence flag
from capture group 8, the minute of the START time. -/
def is_hourly (g : Tokens) : Bool := digitsVal g.sm == 0

/-! ### Static tables -/

/-- `default_precision_dict`: variable name to number of kept digits. -/
def default_precision_dict : List (String × Nat) :=
  [("latitude", 4),
   ("longitude", 4),
   ("satellite_zenith_angle", 3),
   ("solar_zenith_angle", 2),
   ("relative_azimuth_angle", 2),
   ("solar_azimuth_angle", 2),
   ("brightness_temp_ch7", 3),
   ("brightness_temp_ch11", 3),
   ("brightness_temp_ch13", 3),
   ("brightness_temp_ch14", 3),
   ("brightness_temp_ch15", 3),
   ("brightness_temp_crtm_ch7", 3),
   ("brightness_temp_crtm_ch11", 3),
   ("brightness_temp_crtm_ch13", 3),
   ("brightness_temp_crtm_ch14", 3),
   ("brightness_temp_crtm_ch15", 3),
   ("brightness_temp_crtm_ch7_sst", 3),
   ("brightness_temp_crtm_ch11_sst", 3),
   ("brightness_temp_crtm_ch13_sst", 3),
   ("brightness_temp_crtm_ch14_sst", 3),
   ("brightness_temp_crtm_ch15_sst", 3),
   ("sst_regression", 3),
   ("sens_regression", 3),
   ("sses_bias_acspo", 3),
   ("sst_reynolds", 3),
   ("air_temp_gfs", 2),
   ("u_wind_gfs", 2),
   ("v_wind_gfs", 2),
   ("tpw_acspo", 3)]

/-- `default_hourly_layers`: the full variable set. -/
def default_hourly_layers : List String :=
  ["pixel_line_number",
   "pixel_line_time",
   "ascending_descending_flag",
   "latitude",
   "longitude",
   "satellite_zenith_angle",
   "solar_zenith_angle",
   "relative_azimuth_angle",
   "solar_azimuth_angle",
   "brightness_temp_ch7",
   "brightness_temp_ch11",
   "brightness_temp_ch13",
   "brightness_temp_ch14",
   "brightness_temp_ch15",
   "brightness_temp_crtm_ch7",
   "brightness_temp_crtm_ch11",
   "brightness_temp_crtm_ch13",
   "brightness_temp_crtm_ch14",
   "brightness_temp_crtm_ch15",
   "brightness_temp_crtm_ch7_sst",
   "brightness_temp_crtm_ch11_sst",
   "brightness_temp_crtm_ch13_sst",
   "brightness_temp_crtm_ch14_sst",
   "brightness_temp_crtm_ch15_sst",
   "acspo_mask",
   "individual_clear_sky_tests_results",
   "extra_byte_clear_sky_tests_results",
   "sst_regression",
   "sens_regression",
   "sses_bias_acspo",
   "sst_reynolds",
   "air_temp_gfs",
   "u_wind_gfs",
   "v_wind_gfs",
   "tpw_acspo"]

/-- `default_non_hourly_layers`: the reduced variable set. -/
def default_non_hourly_layers : List String :=
  ["pixel_line_number",
   "pixel_line_time",
   "ascending_descending_flag",
   "brightness_temp_ch11",
   "brightness_temp_ch13",
   "brightness_temp_ch14",
   "brightness_temp_ch15",
   "acspo_mask",
   "individual_clear_sky_tests_results",
   "extra_byte_clear_sky_tests_results",
   "sst_regression"]

/-- Lookup in an association list; `dict.get(k)` / `dict[k]`. -/
def assocLookup (l : List (String × α)) (k : String) : Option α :=
  match l with
  | [] => none
  | (a, b) :: t => if a = k then some b else assocLookup t k

/-! ### Container data model

A netCDF container is modelled as dimensions, global attributes and
variables.  Array values are rationals plus a distinguished
not-a-number sentinel; a source array cell is `none` when it is masked.
A masked array read from the container carries an optional fill value
of its own (netCDF4 sets it from the variable's fill-value attribute);
`numpy.ma.filled()` with no argument uses that value, falling back to
numpy's per-datatype default fill value. -/

/-- Stored datatypes relevant to the script: it treats `float32`
specially and everything else uniformly. -/
inductive DType
  | float32
  | float64
  | int8
  | int16
  | int32
deriving DecidableEq, Repr

/-- An array cell value. -/
inductive Val
  | num (q : ℚ)
  | nan
deriving DecidableEq, Repr

/-- Attribute values are opaque to the script (copied verbatim). -/
abbrev AttVal := String

/-- A dimension: name, current size, and the unlimited marker. -/
structure Dim where
  name : String
  size : Nat
  unlimited : Bool
deriving DecidableEq, Repr

/-- A source variable as read from the input container.  `entries` holds
the dense array; `none` marks a masked cell.  `fillValue` is the fill
value the masked array carries (from the variable's fill attribute),
`none` when the array only has numpy's default. -/
structure Variable where
  name : String
  dtype : DType
  dims : List String
  attrs : List (String × AttVal)
  entries : List (Option Val)
  fillValue : Option Val
deriving DecidableEq, Repr

/-- A source container. -/
structure Source where
  dims : List Dim
  attrs : List (String × AttVal)
  vars : List Variable
deriving DecidableEq, Repr

/-- A variable created in the output container, with the storage
settings `createVariable` was given and the dense data written to it. -/
structure OutVar where
  name : String
  dtype : DType
  dims : List String
  zlib : Bool
  complevel : Int
  shuffle : Bool
  lsd : Option Nat
  attrs : List (String × AttVal)
  data : List Val
deriving DecidableEq, Repr

/-- The output container built in the scratch directory. -/
structure Output where
  dims : List Dim
  attrs : List (String × AttVal)
  vars : List OutVar
deriving DecidableEq, Repr

/-- The per-file failures the script can raise.  `notFound`, `naming`
and `missingVar` are `IOError`s in the script, `invalidArg` is a
`ValueError`; each carries the message the script builds. -/
inductive Err
  | notFound (msg : String)
  | naming (msg : String)
  | invalidArg (msg : String)
  | missingVar (msg : String)
deriving DecidableEq, Repr

instance {ε α : Type} [DecidableEq ε] [DecidableEq α] : DecidableEq (Except ε α) :=
  fun x y =>
    match x, y with
    | .ok a, .ok b => if h : a = b then isTrue (by rw [h]) else isFalse (by simp [h])
    | .error a, .error b => if h : a = b then isTrue (by rw [h]) else isFalse (by simp [h])
    | .ok _, .error _ => isFalse (by simp)
    | .error _, .ok _ => isFalse (by simp)

/-- Message of line 130.  The script never calls `.format` on it, so the
placeholder braces stay in the message verbatim. -/
def notFoundMsg : String := "File \x22\x7b\x7d\x22 does not exist"

/-- Message of line 135; `.format` is never called here either. -/
def namingMsg : String := "File \x22\x7b\x7d\x22 is not a legacy file"

/-- Message of line 138 (this one is formatted). -/
def invalidMsg (cl : Int) : String :=
  "Invalid commplevel=" ++ toString cl ++ ". Must be within [0, 9]"

/-- Message of line 164: formatted with the file name, the layer name,
and the string of the `KeyError` raised by the variable lookup (which
is the layer name in single quotes). -/
def missingMsg (nm varname : String) : String :=
  "File \x22" ++ nm ++ "\x22 is missing layer \x22" ++ varname ++ "\x22: \x27"
    ++ varname ++ "\x27"

/-! ### Quantized storage

Modelled from the spec: when `least_significant_digit = n` is passed to
`createVariable`, the container library stores, in place of a value `v`,
the value `round(scale * v) / scale` with `scale = 2 ^ ceil(log2 (10^n))`
(the smallest power of two at least `10^n`); the library documents this
as quantizing the data to a precision of `10^(-n)`, i.e. to `n` digits
after the decimal point.  This behaviour lives in the container library,
not in the script itself.  The model works in exact rational arithmetic
and rounds halves up; the library rounds halves to even, which differs
only at exact ties and is avoided by every concrete value used below. -/

/-- `ceil(log2 (10^n))`, the bit count of the quantization scale. -/
def lsdScaleBits (n : Nat) : Nat := Nat.clog 2 (10 ^ n)

/-- The value the container stores for input `v` under
`least_significant_digit = n`. -/
def quantize (n : Nat) (v : ℚ) : ℚ :=
  ((round ((2 ^ lsdScaleBits n : ℚ) * v) : ℤ) : ℚ) / (2 ^ lsdScaleBits n : ℚ)

/-- Modelled from the spec: `SigRound n v w` says that `w` is `v`
rounded to `n` significant decimal digits, "after accounting for the
value's magnitude" — for `v ≠ 0` the decimal exponent `e` with
`10^e ≤ |v| < 10^(e+1)` positions the kept digits. -/
def SigRound (n : Nat) (v w : ℚ) : Prop :=
  (v = 0 ∧ w = 0) ∨
    ∃ e : ℤ, (10 : ℚ) ^ e ≤ |v| ∧ |v| < (10 : ℚ) ^ (e + 1) ∧
      w = ((round (v * (10 : ℚ) ^ ((n : ℤ) - 1 - e)) : ℤ) : ℚ)
            * (10 : ℚ) ^ (e - ((n : ℤ) - 1))

/-! ### Mask/fill normalization -/

/-- numpy's default fill value for each datatype
(`np.ma.default_fill_value`): `999999` for the integer types and `1e20`
for the floating types. -/
def canonicalFill : DType → Val
  | .float32 => .num 100000000000000000000
  | .float64 => .num 100000000000000000000
  | _ => .num 999999

/-- One cell of lines 179-184: a masked cell of a `float32` array
becomes `np.nan`; a masked cell of any other array becomes the array's
own fill value (`data.filled()` with no argument), which is numpy's
per-datatype default when the array carries none.  Unmasked cells pass
through. -/
def fillEntry (dt : DType) (fv : Option Val) : Option Val → Val
  | some x => x
  | none => if dt = DType.float32 then Val.nan else fv.getD (canonicalFill dt)

/-- Lines 178-184: materialize the dense array, replacing masked cells. -/
def normalizeMask (dt : DType) (fv : Option Val) (entries : List (Option Val)) : List Val :=
  entries.map (fillEntry dt fv)

/-- Quantization lifted to cell values (`nan` stays `nan`). -/
def quantizeVal (n : Nat) : Val → Val
  | .num q => .num (quantize n q)
  | .nan => .nan

/-! ### The per-file operation -/

/-- Lines 151-154: each source dimension is re-created in the output by
name with `size=dim.size`.  `createDimension` makes the new dimension
unlimited exactly when the size passed is zero, so a non-empty
unlimited source dimension comes out as a fixed-size one. -/
def createDimension (nm : String) (size : Nat) : Dim :=
  ⟨nm, size, size == 0⟩

/-- The output container's dimension list. -/
def copyDims (dims : List Dim) : List Dim :=
  dims.map (fun d => createDimension d.name d.size)

/-- `vars[varname]` lookup in the source container. -/
def varLookup (vs : List Variable) (nm : String) : Option Variable :=
  vs.find? (fun v => v.name == nm)

/-- Lines 165-185 for one retained variable: create the destination
variable with the source's datatype and dimensions, gzip compression at
`cl` with shuffling, the precision-table entry as
`least_significant_digit`, copy the attributes, and write the
mask-normalized (and, when a precision entry exists, quantized) data. -/
def transcodeVar (pd : List (String × Nat)) (cl : Int) (v : Variable) : OutVar :=
  let lsd := assocLookup pd v.name
  { name := v.name
    dtype := v.dtype
    dims := v.dims
    zlib := true
    complevel := cl
    shuffle := true
    lsd := lsd
    attrs := v.attrs
    data :=
      match lsd with
      | some n => (normalizeMask v.dtype v.fillValue v.entries).map (quantizeVal n)
      | none => normalizeMask v.dtype v.fillValue v.entries }

/-- Lines 159-185: transcode the retained layers in order, failing on
the first one absent from the source. -/
def buildVars (src : Source) (pd : List (String × Nat)) (cl : Int)
    (layers : List String) (nm : String) : Except Err (List OutVar) :=
  match layers with
  | [] => .ok []
  | l :: ls =>
    match varLookup src.vars l with
    | none => .error (.missingVar (missingMsg nm l))
    | some v =>
      match buildVars src pd cl ls nm with
      | .error e => .error e
      | .ok r => .ok (transcodeVar pd cl v :: r)

/-- `os.path.basename`: the part after the last slash. -/
def basename (p : String) : String :=
  String.mk (p.toList.foldl (fun acc c => if c = '/' then [] else acc ++ [c]) [])

/-- Lines 187-190: the final path.  Python truthiness makes the empty
string behave like `None` (overwrite in place). -/
def outPath (odir : Option String) (path nm : String) : String :=
  match odir with
  | some d => if d = "" then path else d ++ "/" ++ nm
  | none => path

/-- `strip_geo_legacy_file`.  The filesystem is a finite map from paths
to source containers; `os.path.isfile` is membership in it.  The result
is the (path, container) pair the run copies out of the scratch
directory, or the error that aborted it — on an error nothing is
published, because `shutil.copy2` (line 192) only runs after the whole
container was built.  Checks appear in the script's order: existence,
filename grammar, compression level, then the per-layer loop. -/
def strip_geo_legacy_file (fs : List (String × Source)) (path : String)
    (cl : Int) (output_dir : Option String) (pd : List (String × Nat))
    (hl nhl : List String) : Except Err (String × Output) :=
  match assocLookup fs path with
  | none => .error (.notFound notFoundMsg)
  | some src =>
    match legacyMatch (basename path) with
    | none => .error (.naming namingMsg)
    | some g =>
      if cl < 0 ∨ cl > 9 then .error (.invalidArg (invalidMsg cl))
      else
        match buildVars src pd cl (if is_hourly g then hl else nhl) (basename path) with
        | .error e => .error e
        | .ok vs =>
          .ok (outPath output_dir path (basename path),
               ⟨copyDims src.dims, src.attrs, vs⟩)

/-- The files the run publishes: exactly one on success, none on error. -/
def stripWrites (fs : List (String × Source)) (path : String) (cl : Int)
    (output_dir : Option String) (pd : List (String × Nat))
    (hl nhl : List String) : List (String × Output) :=
  match strip_geo_legacy_file fs path cl output_dir pd hl nhl with
  | .ok w => [w]
  | .error _ => []

/-- Boolean success test for a run. -/
def isOkB : Except Err (String × Output) → Bool
  | .ok _ => true
  | .error _ => false

/-- The loop of `main` (lines 216-218): each path is processed with the
default tables and the given output directory and compression level.
The loop body has no exception handling, so the first error propagates
out of `main` and the remaining paths are never processed.  The result
is the list of published files and the error that stopped the run, if
any.  (The filesystem is read-only in the model; the published writes
are reported on the side.) -/
def main (fs : List (String × Source)) (files : List String)
    (output_dir : String) (cl : Int) : List (String × Output) × Option Err :=
  match files with
  | [] => ([], none)
  | p :: rest =>
    match strip_geo_legacy_file fs p cl (some output_dir)
        default_precision_dict default_hourly_layers default_non_hourly_layers with
    | .error e => ([], some e)
    | .ok w =>
      let r := main fs rest output_dir cl
      (w :: r.1, r.2)

/-! ### Substring helpers (for statements about error-message contents) -/

/-- Whether `pat` is a leading segment of `l`. -/
def leadsWith : List Char → List Char → Bool
  | [], _ => true
  | _ :: _, [] => false
  | p :: ps, c :: cs => p == c && leadsWith ps cs

/-- Whether `needle` occurs contiguously inside the second list. -/
def containsSub (needle : List Char) : List Char → Bool
  | [] => needle.isEmpty
  | c :: cs => leadsWith needle (c :: cs) || containsSub needle cs

/-! ### Concrete fixtures

A non-hourly legacy filename (start minute `15`, end minute `00`), the
capture groups Python's engine assigns to it, and some small source
containers used to exercise the pipeline on concrete inputs. -/

/-- A well-formed legacy filename whose start time is `00:15` and end
time is `01:00`. -/
def name0 : String := "ACSPO_V2.41_G16_ABI_2020-01-02_0015-0100_20200102.000000.nc"

/-- The capture groups of `legacy_regex.match(name0)`. -/
def tok0 : Tokens :=
  ⟨"V2.41".toList, "G16".toList, "ABI".toList, "2020".toList, "01".toList,
   "02".toList, "00".toList, "15".toList, "01".toList, "00".toList,
   "20200102".toList, "000000".toList⟩

/-- A minimal source variable: 16-bit integers over dimension `ni`,
no attributes, an empty data array, no mask fill value. -/
def mkVar (nm : String) : Variable := ⟨nm, .int16, ["ni"], [], [], none⟩

/-- A source holding variables `a` and `b`. -/
def srcAB : Source := ⟨[⟨"ni", 3, false⟩], [("who", "x")], [mkVar "a", mkVar "b"]⟩

/-- A source holding only variable `a`. -/
def srcA : Source := ⟨[⟨"ni", 3, false⟩], [], [mkVar "a"]⟩

/-- A filesystem with `name0` present, contents `srcAB`. -/
def fs1 : List (String × Source) := [(name0, srcAB)]

/-- A filesystem with `name0` present, contents `srcA`. -/
def fsA : List (String × Source) := [(name0, srcA)]

/-- The output variable produced for `b` with no precision entry and
compression level 5. -/
def outVarB : OutVar := ⟨"b", .int16, ["ni"], true, 5, true, none, [], []⟩

/-- The output container of the `fs1` run with schemas `["a"]`/`["b"]`. -/
def out1 : Output := ⟨[⟨"ni", 3, false⟩], [("who", "x")], [outVarB]⟩

/-- A source carrying every layer of the default non-hourly schema. -/
def srcGood : Source := ⟨[⟨"nj", 2, false⟩], [], default_non_hourly_layers.map mkVar⟩

/-- A filesystem with `name0` present, contents `srcGood`. -/
def fs2 : List (String × Source) := [(name0, srcGood)]

/-- A filesystem holding a file whose name fails the grammar. -/
def fsH : List (String × Source) := [("hello.nc", srcA)]

/-! ### Helper lemmas -/

theorem eq_name_of_varLookup {vs : List Variable} {nm : String} {v : Variable}
    (h : varLookup vs nm = some v) : v.name = nm := by
  have hp := List.find?_some h
  simpa using hp

theorem buildVars_names (src : Source) (pd : List (String × Nat)) (cl : Int)
    (nm : String) :
    ∀ (layers : List String) (vs : List OutVar),
      buildVars src pd cl layers nm = .ok vs → vs.map OutVar.name = layers := by
  intro layers
  induction layers with
  | nil =>
    intro vs h
    simp only [buildVars] at h
    injection h with h
    simp [← h]
  | cons l ls ih =>
    intro vs h
    simp only [buildVars] at h
    cases hv : varLookup src.vars l with
    | none => rw [hv] at h; exact absurd h (by simp)
    | some v =>
      rw [hv] at h
      cases hb : buildVars src pd cl ls nm with
      | error e => rw [hb] at h; exact absurd h (by simp)
      | ok r =>
        rw [hb] at h
        injection h with h
        rw [← h]
        simp [transcodeVar, eq_name_of_varLookup hv, ih r hb]

theorem buildVars_missing (src : Source) (pd : List (String × Nat)) (cl : Int)
    (nm : String) :
    ∀ layers : List String, (∃ l ∈ layers, varLookup src.vars l = none) →
      ∃ l ∈ layers, varLookup src.vars l = none ∧
        buildVars src pd cl layers nm = .error (.missingVar (missingMsg nm l)) := by
  intro layers
  induction layers with
  | nil => rintro ⟨l, hl, -⟩; exact absurd hl (List.not_mem_nil l)
  | cons l ls ih =>
    rintro ⟨m, hm, hnone⟩
    cases hv : varLookup src.vars l with
    | none =>
      exact ⟨l, List.mem_cons_self l ls, hv, by simp [buildVars, hv]⟩
    | some v =>
      have hmls : m ∈ ls := by
        rcases List.mem_cons.mp hm with h | h
        · rw [h] at hnone; rw [hnone] at hv; exact absurd hv (by simp)
        · exact h
      obtain ⟨m2, hm2, hn2, herr⟩ := ih ⟨m, hmls, hnone⟩
      exact ⟨m2, List.mem_cons_of_mem l hm2, hn2, by simp [buildVars, hv, herr]⟩

theorem containsSub_nil (l : List Char) : containsSub [] l = true := by
  induction l with
  | nil => rfl
  | cons c cs ih => simp [containsSub, leadsWith]

theorem leadsWith_self_append (a b : List Char) : leadsWith a (a ++ b) = true := by
  induction a with
  | nil => rfl
  | cons c cs ih => simp [leadsWith, ih]

theorem containsSub_of_append (a x y : List Char) :
    containsSub a (x ++ (a ++ y)) = true := by
  induction x with
  | nil =>
    cases a with
    | nil => simpa using containsSub_nil y
    | cons c cs =>
      have h := leadsWith_self_append (c :: cs) y
      simp only [List.nil_append, List.cons_append] at h ⊢
      simp [containsSub, h]
  | cons c x ih => simp [containsSub, ih]

theorem toList_append (s t : String) : (s ++ t).toList = s.toList ++ t.toList := by
  simp [String.data_append]

theorem missingMsg_contains_name (nm l : String) :
    containsSub nm.toList (missingMsg nm l).toList = true := by
  have h := containsSub_of_append nm.toList "File \x22".toList
    ("\x22 is missing layer \x22" ++ l ++ "\x22: \x27" ++ l ++ "\x27").toList
  simp only [toList_append, List.append_assoc] at h
  simp only [missingMsg, toList_append, List.append_assoc]
  exact h

theorem missingMsg_contains_layer (nm l : String) :
    containsSub l.toList (missingMsg nm l).toList = true := by
  have h := containsSub_of_append l.toList
    ("File \x22" ++ nm ++ "\x22 is missing layer \x22").toList
    ("\x22: \x27" ++ l ++ "\x27").toList
  simp only [toList_append, List.append_assoc] at h
  simp only [missingMsg, toList_append, List.append_assoc]
  exact h

theorem lsdScaleBits_two : lsdScaleBits 2 = 7 := by
  have h1 : Nat.clog 2 (10 ^ 2) ≤ 7 := by
    rw [← Nat.le_pow_iff_clog_le (by norm_num : 1 < 2)]
    norm_num
  have h2 : ¬ (Nat.clog 2 (10 ^ 2) ≤ 6) := by
    rw [← Nat.le_pow_iff_clog_le (by norm_num : 1 < 2)]
    norm_num
  unfold lsdScaleBits
  omega

/-! ### Claims -/

/-- C1 (amended): the cadence flag comes from capture group 8, the
START-time minute, not the end-time minute: whenever the filename
matches the grammar with groups `g` and the operation succeeds, the
output contains exactly the hourly schema when `int(g.sm) == 0` and
exactly the non-hourly schema otherwise, for every choice of the two
schema tables. -/
theorem c1_schema_selected_by_start_minute
    (fs : List (String × Source)) (path : String) (cl : Int)
    (odir : Option String) (pd : List (String × Nat)) (hl nhl : List String)
    (g : Tokens) (p : String) (o : Output)
    (hm : legacyMatch (basename path) = some g)
    (hok : strip_geo_legacy_file fs path cl odir pd hl nhl = .ok (p, o)) :
    o.vars.map OutVar.name = if is_hourly g then hl else nhl := by
  unfold strip_geo_legacy_file at hok
  cases hfs : assocLookup fs path with
  | none => simp [hfs] at hok
  | some src =>
    simp only [hfs, hm] at hok
    by_cases hcl : cl < 0 ∨ cl > 9
    · simp [hcl] at hok
    · rw [if_neg hcl] at hok
      cases hbv : buildVars src pd cl (if is_hourly g then hl else nhl) (basename path) with
      | error e => simp [hbv] at hok
      | ok vs =>
        simp only [hbv] at hok
        injection hok with hok
        injection hok with h1 h2
        rw [← h2]
        exact buildVars_names src pd cl (basename path) _ vs hbv

/-- C1 counterexample: `name0` is accepted by the grammar with end-time
minute `00` and start-time minute `15`; the claim says minute-`00`
end time selects the hourly schema, but the derived flag is false and
the script selects the non-hourly schema (which differs from the hourly
one). -/
theorem c1_counterexample :
    legacyMatch name0 = some tok0 ∧
    digitsVal tok0.em = 0 ∧
    is_hourly tok0 = false ∧
    (if is_hourly tok0 then default_hourly_layers else default_non_hourly_layers)
      = default_non_hourly_layers ∧
    default_non_hourly_layers ≠ default_hourly_layers := by decide

/-- C1 witness: a concrete successful run on `name0` (start minute 15)
with schemas `["a"]` / `["b"]` retains exactly `["b"]`. -/
theorem c1_witness :
    legacyMatch name0 = some tok0 ∧
    out1.vars.map OutVar.name = (if is_hourly tok0 then ["a"] else ["b"]) :=
  ⟨by decide,
   c1_schema_selected_by_start_minute fs1 name0 5 none [] ["a"] ["b"] tok0 name0 out1
     (by decide) (by decide)⟩

/-- C2 (amended): the batch loop of `main` has no per-file exception
handling: as soon as one path fails, the error propagates, nothing
further is published and the remaining paths are never processed. -/
theorem c2_batch_stops_at_first_error
    (fs : List (String × Source)) (p : String) (rest : List String)
    (odir : String) (cl : Int) (e : Err)
    (he : strip_geo_legacy_file fs p cl (some odir) default_precision_dict
      default_hourly_layers default_non_hourly_layers = .error e) :
    main fs (p :: rest) odir cl = ([], some e) := by
  simp [main, he]

/-- C2 counterexample: with a missing first path and a perfectly
processable second path, the batch publishes nothing at all — the
second path is never processed, contradicting the claim that the batch
continues with every remaining path. -/
theorem c2_counterexample :
    isOkB (strip_geo_legacy_file fs2 name0 5 (some "") default_precision_dict
      default_hourly_layers default_non_hourly_layers) = true ∧
    main fs2 ["nofile.nc", name0] "" 5 = ([], some (.notFound notFoundMsg)) :=
  ⟨by decide, by decide⟩

/-- C2 witness: the amended statement applied to the concrete two-path
batch whose first path does not exist. -/
theorem c2_witness :
    main fs2 ["nofile.nc", name0] "" 5 = ([], some (.notFound notFoundMsg)) :=
  c2_batch_stops_at_first_error fs2 "nofile.nc" [name0] "" 5
    (.notFound notFoundMsg) (by decide)

/-- C3 (amended): the parse accepts exactly the strings whose PREFIX
matches the grammar (trailing characters are ignored by `re.match`);
when no prefix matches, the whole operation fails with the naming error
and publishes nothing — no partial token set is ever used. -/
theorem c3_unmatched_name_is_naming_error
    (fs : List (String × Source)) (path : String) (cl : Int)
    (odir : Option String) (pd : List (String × Nat)) (hl nhl : List String)
    (src : Source)
    (hfs : assocLookup fs path = some src)
    (hm : legacyMatch (basename path) = none) :
    strip_geo_legacy_file fs path cl odir pd hl nhl = .error (.naming namingMsg) ∧
    stripWrites fs path cl odir pd hl nhl = [] := by
  have h1 : strip_geo_legacy_file fs path cl odir pd hl nhl
      = .error (.naming namingMsg) := by
    unfold strip_geo_legacy_file
    rw [hfs, hm]
  exact ⟨h1, by simp [stripWrites, h1]⟩

/-- C3 counterexample: appending `XTRA` after the `.nc` suffix leaves a
string the grammar does NOT match in full, yet the match succeeds (with
the same capture groups) and the whole operation runs to success
instead of failing with a naming error. -/
theorem c3_counterexample :
    legacyMatch (name0 ++ "XTRA") = some tok0 ∧
    isOkB (strip_geo_legacy_file [(name0 ++ "XTRA", srcAB)] (name0 ++ "XTRA")
      5 none [] ["a"] ["b"]) = true :=
  ⟨by decide, by decide⟩

/-- C3 witness: a present file named `hello.nc` fails with the naming
error and nothing is published. -/
theorem c3_witness :
    strip_geo_legacy_file fsH "hello.nc" 5 none [] ["a"] ["b"]
      = .error (.naming namingMsg) ∧
    stripWrites fsH "hello.nc" 5 none [] ["a"] ["b"] = [] :=
  c3_unmatched_name_is_naming_error fsH "hello.nc" 5 none [] ["a"] ["b"] srcA
    (by decide) (by decide)

/-- C4 (amended): every dimension is copied to the output by name and
size, but the unlimited marker is NOT preserved: an output dimension is
unlimited exactly when its size is zero (`createDimension` semantics),
so a non-empty unlimited source dimension becomes fixed-size. -/
theorem c4_dims_copied_unlimited_iff_size_zero
    (fs : List (String × Source)) (path : String) (cl : Int)
    (odir : Option String) (pd : List (String × Nat)) (hl nhl : List String)
    (src : Source) (p : String) (o : Output)
    (hfs : assocLookup fs path = some src)
    (hok : strip_geo_legacy_file fs path cl odir pd hl nhl = .ok (p, o)) :
    o.dims.map Dim.name = src.dims.map Dim.name ∧
    o.dims.map Dim.size = src.dims.map Dim.size ∧
    o.dims.map Dim.unlimited = src.dims.map (fun d => d.size == 0) := by
  unfold strip_geo_legacy_file at hok
  simp only [hfs] at hok
  cases hm : legacyMatch (basename path) with
  | none => simp [hm] at hok
  | some g =>
    simp only [hm] at hok
    by_cases hcl : cl < 0 ∨ cl > 9
    · simp [hcl] at hok
    · rw [if_neg hcl] at hok
      cases hbv : buildVars src pd cl (if is_hourly g then hl else nhl) (basename path) with
      | error e => simp [hbv] at hok
      | ok vs =>
        simp only [hbv] at hok
        injection hok with hok
        injection hok with h1 h2
        rw [← h2]
        refine ⟨?_, ?_, ?_⟩ <;>
          simp [copyDims, createDimension, List.map_map, Function.comp]

/-- C4 counterexample: an unlimited source dimension of current size 5
is copied as a fixed-size dimension — the unlimited marker is lost. -/
theorem c4_counterexample :
    copyDims [⟨"time", 5, true⟩] = [⟨"time", 5, false⟩] := by decide

/-- C4 witness: the amended statement applied to the concrete `fs1`
run. -/
theorem c4_witness :
    out1.dims.map Dim.name = srcAB.dims.map Dim.name ∧
    out1.dims.map Dim.size = srcAB.dims.map Dim.size ∧
    out1.dims.map Dim.unlimited = srcAB.dims.map (fun d => d.size == 0) :=
  c4_dims_copied_unlimited_iff_size_zero fs1 name0 5 none [] ["a"] ["b"]
    srcAB name0 out1 (by decide) (by decide)

/-- C6 (confirmed): when the source lacks a schema-selected layer, the
whole operation fails with a missing-layer error whose message contains
both the file name and the layer name, and nothing at all is published,
so the target path is untouched. -/
theorem c6_missing_layer_aborts_without_output
    (fs : List (String × Source)) (path : String) (cl : Int)
    (odir : Option String) (pd : List (String × Nat)) (hl nhl : List String)
    (src : Source) (g : Tokens)
    (hfs : assocLookup fs path = some src)
    (hm : legacyMatch (basename path) = some g)
    (hcl : ¬(cl < 0 ∨ cl > 9))
    (hmiss : ∃ l ∈ (if is_hourly g then hl else nhl), varLookup src.vars l = none) :
    (∃ l ∈ (if is_hourly g then hl else nhl), varLookup src.vars l = none ∧
      strip_geo_legacy_file fs path cl odir pd hl nhl
        = .error (.missingVar (missingMsg (basename path) l)) ∧
      containsSub (basename path).toList (missingMsg (basename path) l).toList = true ∧
      containsSub l.toList (missingMsg (basename path) l).toList = true) ∧
    stripWrites fs path cl odir pd hl nhl = [] := by
  obtain ⟨l, hmem, hnone, herr⟩ := buildVars_missing src pd cl (basename path) _ hmiss
  have hstrip : strip_geo_legacy_file fs path cl odir pd hl nhl
      = .error (.missingVar (missingMsg (basename path) l)) := by
    unfold strip_geo_legacy_file
    simp only [hfs, hm]
    rw [if_neg hcl]
    simp only [herr]
  refine ⟨⟨l, hmem, hnone, hstrip, missingMsg_contains_name _ _,
    missingMsg_contains_layer _ _⟩, ?_⟩
  simp [stripWrites, hstrip]

/-- C6 witness: the concrete source `srcA` lacks layer `b` of the
selected schema; the run fails with the missing-layer error and
publishes nothing. -/
theorem c6_witness :
    (∃ l ∈ (if is_hourly tok0 then ["a"] else ["b"]), varLookup srcA.vars l = none ∧
      strip_geo_legacy_file fsA name0 5 none [] ["a"] ["b"]
        = .error (.missingVar (missingMsg (basename name0) l)) ∧
      containsSub (basename name0).toList (missingMsg (basename name0) l).toList = true ∧
      containsSub l.toList (missingMsg (basename name0) l).toList = true) ∧
    stripWrites fsA name0 5 none [] ["a"] ["b"] = [] :=
  c6_missing_layer_aborts_without_output fsA name0 5 none [] ["a"] ["b"] srcA tok0
    (by decide) (by decide) (by decide) (by decide)

/-- C7 (confirmed): for a present, grammar-conforming input, a
compression level outside `[0, 9]` makes the operation fail with the
invalid-argument error (raised before the scratch build starts) and
nothing is published, so the target path is untouched. -/
theorem c7_invalid_complevel_rejected_before_output
    (fs : List (String × Source)) (path : String) (cl : Int)
    (odir : Option String) (pd : List (String × Nat)) (hl nhl : List String)
    (src : Source) (g : Tokens)
    (hfs : assocLookup fs path = some src)
    (hm : legacyMatch (basename path) = some g)
    (hcl : cl < 0 ∨ cl > 9) :
    strip_geo_legacy_file fs path cl odir pd hl nhl
      = .error (.invalidArg (invalidMsg cl)) ∧
    stripWrites fs path cl odir pd hl nhl = [] := by
  have h1 : strip_geo_legacy_file fs path cl odir pd hl nhl
      = .error (.invalidArg (invalidMsg cl)) := by
    unfold strip_geo_legacy_file
    simp only [hfs, hm]
    rw [if_pos hcl]
  exact ⟨h1, by simp [stripWrites, h1]⟩

/-- C7 witness: level 10 on the concrete `fs1` input. -/
theorem c7_witness :
    strip_geo_legacy_file fs1 name0 10 none [] ["a"] ["b"]
      = .error (.invalidArg (invalidMsg 10)) ∧
    stripWrites fs1 name0 10 none [] ["a"] ["b"] = [] :=
  c7_invalid_complevel_rejected_before_output fs1 name0 10 none [] ["a"] ["b"]
    srcAB tok0 (by decide) (by decide) (by decide)

/-- C9 (code bug): the not-found and naming error messages never call
`.format`, so they do not contain the offending file name — the
placeholder `{}` is left verbatim.  By contrast, the missing-layer
message (which IS formatted) does contain its arguments, showing the
intended pattern.  Evaluated at concrete failing inputs. -/
theorem c9_messages_lack_file_name :
    strip_geo_legacy_file [] name0 5 none default_precision_dict
      default_hourly_layers default_non_hourly_layers
      = .error (.notFound notFoundMsg) ∧
    containsSub name0.toList notFoundMsg.toList = false ∧
    strip_geo_legacy_file fsH "hello.nc" 5 none default_precision_dict
      default_hourly_layers default_non_hourly_layers
      = .error (.naming namingMsg) ∧
    containsSub "hello.nc".toList namingMsg.toList = false ∧
    containsSub "b".toList (missingMsg "hello.nc" "b").toList = true := by decide

/-- C5 (amended): the container's `least_significant_digit = n`
quantization bounds the absolute error by half of `10^(-n)` — a
fixed number of digits after the decimal point, NOT `n` significant
decimal digits: the guarantee does not scale with the value's
magnitude. -/
theorem c5_quantize_within_decimal_tolerance (vname : String) (n : Nat)
    (hp : assocLookup default_precision_dict vname = some n) (v : ℚ) :
    |quantize n v - v| ≤ 1 / (2 * 10 ^ n) := by
  have hb : ((10:ℚ) ^ n) ≤ (2:ℚ) ^ lsdScaleBits n := by
    have h := @Nat.le_pow_clog 2 (by norm_num) (10 ^ n)
    have h2 : ((10 ^ n : ℕ) : ℚ) ≤ ((2 ^ lsdScaleBits n : ℕ) : ℚ) := by
      exact_mod_cast h
    push_cast at h2
    exact h2
  have hs : (0:ℚ) < 2 ^ lsdScaleBits n := by positivity
  have h10 : (0:ℚ) < (10:ℚ) ^ n := by positivity
  have heq : quantize n v - v
      = (((round ((2 ^ lsdScaleBits n : ℚ) * v) : ℤ) : ℚ)
          - (2 ^ lsdScaleBits n : ℚ) * v) / (2 ^ lsdScaleBits n : ℚ) := by
    unfold quantize
    field_simp
  have hr : |(((round ((2 ^ lsdScaleBits n : ℚ) * v) : ℤ) : ℚ)
      - (2 ^ lsdScaleBits n : ℚ) * v)| ≤ 1 / 2 := by
    rw [abs_sub_comm]
    exact abs_sub_round _
  have habs0 : (0:ℚ) ≤ |(((round ((2 ^ lsdScaleBits n : ℚ) * v) : ℤ) : ℚ)
      - (2 ^ lsdScaleBits n : ℚ) * v)| := abs_nonneg _
  calc |quantize n v - v|
      = |(((round ((2 ^ lsdScaleBits n : ℚ) * v) : ℤ) : ℚ)
          - (2 ^ lsdScaleBits n : ℚ) * v)| / (2 ^ lsdScaleBits n : ℚ) := by
        rw [heq, abs_div, abs_of_pos hs]
    _ ≤ (1 / 2) / (2 ^ lsdScaleBits n : ℚ) := by gcongr
    _ ≤ (1 / 2) / ((10:ℚ) ^ n) := by gcongr
    _ = 1 / (2 * 10 ^ n) := by ring

/-- C5 counterexample: for `solar_zenith_angle` (precision 2) and input
`v = 0.00123`, the stored value is `0`: rounding both to 2 significant
decimal digits gives `0` versus `0.0012`, so the significant-digit
round-trip property fails (the quantization keeps 2 digits after the
decimal point, not 2 significant digits). -/
theorem c5_counterexample :
    assocLookup default_precision_dict "solar_zenith_angle" = some 2 ∧
    ¬ ∃ w : ℚ, SigRound 2 (quantize 2 (123 / 100000)) w
        ∧ SigRound 2 (123 / 100000) w := by
  refine ⟨by decide, ?_⟩
  have hq : quantize 2 (123 / 100000 : ℚ) = 0 := by
    unfold quantize
    rw [lsdScaleBits_two]
    have hr : round ((2 ^ 7 : ℚ) * (123 / 100000)) = 0 := by
      rw [round_eq]; norm_num
    rw [hr]
    norm_num
  rintro ⟨w, hw0, hw⟩
  rw [hq] at hw0
  have hwz : w = 0 := by
    rcases hw0 with ⟨-, h⟩ | ⟨e, h1, -, -⟩
    · exact h
    · exfalso
      have hpos : (0:ℚ) < 10 ^ e := by positivity
      rw [abs_zero] at h1
      linarith
  subst hwz
  rcases hw with ⟨h0, -⟩ | ⟨e, h1, h2, h3⟩
  · norm_num at h0
  · have habs : |(123 / 100000 : ℚ)| = 123 / 100000 := by
      rw [abs_of_pos]; norm_num
    rw [habs] at h1 h2
    have he : e = -3 := by
      have hlt : (10:ℚ) ^ e < 10 ^ (-2 : ℤ) := by
        apply lt_of_le_of_lt h1
        norm_num
      have hgt : (10:ℚ) ^ (-3 : ℤ) < 10 ^ (e + 1) := by
        apply lt_trans _ h2
        norm_num
      have h5 := (zpow_lt_zpow_iff_right₀ (by norm_num : (1:ℚ) < 10)).mp hlt
      have h6 := (zpow_lt_zpow_iff_right₀ (by norm_num : (1:ℚ) < 10)).mp hgt
      omega
    subst he
    norm_num [round_eq] at h3

/-- C5 witness: the amended bound applied at `latitude` (precision 4)
and input `1/3`. -/
theorem c5_witness :
    assocLookup default_precision_dict "latitude" = some 4 ∧
    |quantize 4 (1 / 3) - 1 / 3| ≤ 1 / (2 * 10 ^ 4) :=
  ⟨by decide, c5_quantize_within_decimal_tolerance "latitude" 4 (by decide) (1 / 3)⟩

/-- C8 (amended): mask normalization leaves unmasked cells unchanged,
turns a masked cell of a `float32` array into NaN, and turns a masked
cell of any other array into the array's OWN fill value — numpy's
per-datatype default fill only when the array carries none. -/
theorem c8_normalize_mask_pointwise (dt : DType) (fv : Option Val)
    (es : List (Option Val)) (i : Nat) :
    (normalizeMask dt fv es)[i]? = (es[i]?).map (fun e =>
      match e with
      | some x => x
      | none => if dt = DType.float32 then Val.nan else fv.getD (canonicalFill dt)) := by
  simp only [normalizeMask, List.getElem?_map]
  rfl

/-- C8 counterexample: a masked cell of an `int16` array whose fill
value is `-999` (as netCDF sets it from the variable's fill attribute)
is stored as `-999`, not as the datatype's canonical default fill
`999999`. -/
theorem c8_counterexample :
    normalizeMask DType.int16 (some (Val.num (-999))) [none] = [Val.num (-999)] ∧
    Val.num (-999) ≠ canonicalFill DType.int16 := by
  constructor
  · rfl
  · simp only [canonicalFill, ne_eq, Val.num.injEq]
    norm_num

/-- C10 (confirmed): passing the empty string as the output directory
behaves exactly like passing no output directory at all — Python
truthiness makes both overwrite the input path. -/
theorem c10_empty_output_dir_same_as_none
    (fs : List (String × Source)) (path : String) (cl : Int)
    (pd : List (String × Nat)) (hl nhl : List String) :
    strip_geo_legacy_file fs path cl (some "") pd hl nhl
      = strip_geo_legacy_file fs path cl none pd hl nhl := by
  unfold strip_geo_legacy_file
  cases assocLookup fs path with
  | none => rfl
  | some src =>
    cases legacyMatch (basename path) with
    | none => rfl
    | some g =>
      by_cases hcl : cl < 0 ∨ cl > 9
      · simp [hcl]
      · simp only [if_neg hcl]
        cases buildVars src pd cl (if is_hourly g then hl else nhl) (basename path) with
        | error e => rfl
        | ok vs => simp [outPath]

end GeoLegacyStrip
